import Mathlib

/-!
Shallow embedding of the libtock-rs alarm client (src/apis/alarm/src/lib.rs)
and proofs of the specified properties of its time-unit conversions and of
the relative-sleep protocol against a mock kernel.

Machine integers (`u32`) are modelled as `Nat` carrying the bound `< 2^32`
as an explicit hypothesis where it matters; wrapping arithmetic is explicit
`% 2^32` and saturating multiplication is an explicit `min` against the
32-bit maximum, exactly as the Rust operations behave.
-/

namespace LibtockAlarm

/-- The 32-bit maximum, the saturation point of `u32::saturating_mul`. -/
def U32_MAX : Nat := 4294967295

/-- The modulus of 32-bit wrapping arithmetic. -/
def U32_MOD : Nat := 4294967296

/-- `Hz(pub u32)`: tick rate in cycles per second. -/
structure Hz where
  val : Nat
deriving Repr, DecidableEq

/-- `Ticks(pub u32)`: a 32-bit count of hardware ticks. -/
structure Ticks where
  val : Nat
deriving Repr, DecidableEq

/-- `Milliseconds(pub u32)`: a 32-bit count of milliseconds. -/
structure Milliseconds where
  val : Nat
deriving Repr, DecidableEq

/-- `u32::saturating_mul`: the product clamped to the 32-bit maximum. -/
def saturating_mul (a b : Nat) : Nat :=
  min (a * b) U32_MAX

/-- The local `div_ceil` helper inside `Milliseconds::to_ticks`:
quotient plus one when the remainder is nonzero. -/
def div_ceil (a other : Nat) : Nat :=
  let d := a / other
  let m := a % other
  if m = 0 then d else d + 1

/-- `impl Convert for Ticks`: `to_ticks` is the identity, the frequency
argument is ignored. -/
def Ticks.to_ticks (t : Ticks) (_freq : Hz) : Ticks := t

/-- `impl Convert for Milliseconds`:
`Ticks(div_ceil(self.0.saturating_mul(freq.0), 1000))`. -/
def Milliseconds.to_ticks (m : Milliseconds) (freq : Hz) : Ticks :=
  Ticks.mk (div_ceil (saturating_mul m.val freq.val) 1000)

/-- `impl Add for Ticks`: `Ticks(self.0.wrapping_add(other.0))`. -/
def Ticks.add (a b : Ticks) : Ticks :=
  Ticks.mk ((a.val + b.val) % U32_MOD)

/-- `impl Sub for Ticks`: `Ticks(self.0.wrapping_sub(other.0))`,
written over `Nat` as addition of the modular complement. -/
def Ticks.sub (a b : Ticks) : Ticks :=
  Ticks.mk ((a.val + (U32_MOD - b.val % U32_MOD)) % U32_MOD)

/-- The ceiling division by 1000 in closed form, used to reason about
`Milliseconds.to_ticks`. -/
theorem div_ceil_1000_eq (a : Nat) : div_ceil a 1000 = (a + 999) / 1000 := by
  show (if a % 1000 = 0 then a / 1000 else a / 1000 + 1) = (a + 999) / 1000
  split <;> omega

/-- `const DRIVER_NUM: u32 = 0`. -/
def DRIVER_NUM : Nat := 0

namespace command

/-- Command id `EXISTS = 0`. -/
def EXISTS : Nat := 0

/-- Command id `FREQUENCY = 1`. -/
def FREQUENCY : Nat := 1

/-- Command id `TIME = 2`. -/
def TIME : Nat := 2

/-- Command id `STOP = 3`. -/
def STOP : Nat := 3

/-- Command id `SET_RELATIVE = 5`. -/
def SET_RELATIVE : Nat := 5

/-- Command id `SET_ABSOLUTE = 6`. -/
def SET_ABSOLUTE : Nat := 6

end command

namespace subscribe

/-- Subscribe slot `CALLBACK = 0`. -/
def CALLBACK : Nat := 0

end subscribe

/-- Modelled from the spec: the `ErrorCode` type of the syscall transport
(libtock_platform, not under src/); the spec passes error codes through
unchanged, so an opaque numeric code suffices. -/
structure ErrorCode where
  code : Nat
deriving Repr, DecidableEq

/-- Modelled from the spec: an upcall delivered by the kernel at a yield
point (section 6): either the alarm upcall for driver 0 slot 0 carrying the
scheduled tick and the reference tick, or an unrelated upcall that leaves
the observation cell untouched. -/
inductive Upcall
  | alarm (whenTick refTick : Nat)
  | unrelated
deriving Repr, DecidableEq

/-- Modelled from the spec: a mock kernel for the syscall transport
(sections 6 and 8): fixed outcomes for the `FREQUENCY` query, the subscribe
call and the `SET_RELATIVE` command, plus the finite list of upcalls it
delivers, one per yield. -/
structure MockKernel where
  freqResult : Except ErrorCode Nat
  subscribeResult : Except ErrorCode Unit
  setRelativeResult : Except ErrorCode Nat
  upcalls : List Upcall

/-- An observable syscall event issued by `sleep_for`, in order. -/
inductive Event
  | command (driver id arg0 arg1 : Nat)
  | subscribeEv (driver slot : Nat)
  | nullSubscribe (driver slot : Nat)
  | yieldEv
deriving Repr, DecidableEq

/-- The outcome of one `sleep_for` call against the mock kernel:
`result = none` means the yield loop exhausted the mock's upcalls with the
observation cell still empty, i.e. the call blocks and never returns;
`subscribed` is whether a subscription is still registered on driver 0
slot 0 at the moment the call returns (or, when blocked, at the point the
upcalls ran out); `yields` counts the yields performed. -/
structure SleepOutcome where
  result : Option (Except ErrorCode Unit)
  events : List Event
  subscribed : Bool
  yields : Nat
deriving Repr

/-- Delivery of one upcall into the observation cell: the alarm upcall
stores its two arguments, an unrelated upcall leaves the cell as is. -/
def deliver (cell : Option (Nat × Nat)) : Upcall → Option (Nat × Nat)
  | .alarm w r => some (w, r)
  | .unrelated => cell

/-- The yield loop of `sleep_for`: yield, let the kernel deliver the next
upcall, return once the observation cell is populated. Returns the number
of yields performed when the cell gets populated, `none` when the mock's
upcalls run out first (the real loop would stay blocked in yield). -/
def yieldLoop (cell : Option (Nat × Nat)) : List Upcall → Option Nat
  | [] => none
  | u :: rest =>
    match deliver cell u with
    | some _ => some 1
    | none => (yieldLoop none rest).map (fun n => n + 1)

/-- `Alarm::sleep_for`, shallowly embedded against the mock kernel.
The syscall sequence mirrors the source: query `FREQUENCY`, convert the
duration via its `to_ticks`, open the share scope with an empty observation
cell, subscribe on driver 0 slot 0, issue `SET_RELATIVE` with the tick
count and 0 (discarding the returned when-tick), then yield until the cell
is populated. Modelled from the spec (section 4.3, libtock_platform's
share::scope is not under src/): every exit of the scope after a successful
subscribe installs a null subscription before the cell is destroyed. -/
def sleep_for (toTicks : Hz → Ticks) (k : MockKernel) : SleepOutcome :=
  match k.freqResult with
  | .error e =>
    { result := some (.error e)
      events := [.command DRIVER_NUM command.FREQUENCY 0 0]
      subscribed := false
      yields := 0 }
  | .ok f =>
    let ticks := toTicks (Hz.mk f)
    match k.subscribeResult with
    | .error e =>
      { result := some (.error e)
        events := [.command DRIVER_NUM command.FREQUENCY 0 0,
                   .subscribeEv DRIVER_NUM subscribe.CALLBACK]
        subscribed := false
        yields := 0 }
    | .ok _ =>
      match k.setRelativeResult with
      | .error e =>
        { result := some (.error e)
          events := [.command DRIVER_NUM command.FREQUENCY 0 0,
                     .subscribeEv DRIVER_NUM subscribe.CALLBACK,
                     .command DRIVER_NUM command.SET_RELATIVE ticks.val 0,
                     .nullSubscribe DRIVER_NUM subscribe.CALLBACK]
          subscribed := false
          yields := 0 }
      | .ok _whenTick =>
        match yieldLoop none k.upcalls with
        | some n =>
          { result := some (.ok ())
            events := [.command DRIVER_NUM command.FREQUENCY 0 0,
                       .subscribeEv DRIVER_NUM subscribe.CALLBACK,
                       .command DRIVER_NUM command.SET_RELATIVE ticks.val 0]
                      ++ List.replicate n .yieldEv
                      ++ [.nullSubscribe DRIVER_NUM subscribe.CALLBACK]
            subscribed := false
            yields := n }
        | none =>
          { result := none
            events := [.command DRIVER_NUM command.FREQUENCY 0 0,
                       .subscribeEv DRIVER_NUM subscribe.CALLBACK,
                       .command DRIVER_NUM command.SET_RELATIVE ticks.val 0]
                      ++ List.replicate k.upcalls.length .yieldEv
            subscribed := true
            yields := k.upcalls.length }

/-- Claim C1, counterexample: `Milliseconds(0xFFFF_FFFF).to_ticks(Hz(1_000_000))`
does not have value `0xFFFF_FFFF`: the saturated product is divided by 1000,
so the result is not the saturated 32-bit maximum. -/
theorem to_ticks_saturation_counterexample :
    ¬ (Milliseconds.to_ticks (Milliseconds.mk 4294967295) (Hz.mk 1000000)).val = 4294967295 := by
  decide

/-- Claim C1, amended: `Milliseconds(0xFFFF_FFFF).to_ticks(Hz(1_000_000))` has
value `4_294_968 = ceil((2^32 - 1) / 1000)`: the multiplication saturates to the
32-bit maximum and the ceiling division by 1000 is then applied to that
saturated value. -/
theorem to_ticks_saturation_amended :
    (Milliseconds.to_ticks (Milliseconds.mk 4294967295) (Hz.mk 1000000)).val = 4294968 := by
  decide

/-- Claim C2: when `m.val * f.val` does not saturate, the conversion rounds up:
the tick count times 1000 covers the exact product, the tick count minus one
(in exact integer arithmetic) does not, and in particular
`Milliseconds(1).to_ticks(Hz(1)) = Ticks(1)`. -/
theorem to_ticks_round_up (m : Milliseconds) (f : Hz)
    (h : m.val * f.val ≤ 4294967295) :
    m.val * f.val ≤ (Milliseconds.to_ticks m f).val * 1000
    ∧ (((Milliseconds.to_ticks m f).val : Int) - 1) * 1000 < ((m.val * f.val : Nat) : Int)
    ∧ Milliseconds.to_ticks (Milliseconds.mk 1) (Hz.mk 1) = Ticks.mk 1 := by
  have hv : (Milliseconds.to_ticks m f).val = (m.val * f.val + 999) / 1000 := by
    simp only [Milliseconds.to_ticks, saturating_mul, div_ceil_1000_eq, U32_MAX]
    omega
  refine ⟨by omega, by omega, by decide⟩

/-- Witness for C2 at `m = 3`, `f = 500` (converted tick count 2). -/
theorem to_ticks_round_up_witness :
    (3 : Nat) * 500 ≤ 4294967295
    ∧ (3 * 500 ≤ (Milliseconds.to_ticks (Milliseconds.mk 3) (Hz.mk 500)).val * 1000
       ∧ (((Milliseconds.to_ticks (Milliseconds.mk 3) (Hz.mk 500)).val : Int) - 1) * 1000
           < ((3 * 500 : Nat) : Int)
       ∧ Milliseconds.to_ticks (Milliseconds.mk 1) (Hz.mk 1) = Ticks.mk 1) :=
  ⟨by decide, to_ticks_round_up (Milliseconds.mk 3) (Hz.mk 500) (by decide)⟩

/-- Claim C6: for all 32-bit `a b : Ticks`, `(a + b) - b = a` under the
wrapping `Add`/`Sub` of `Ticks`, including when `a.val + b.val` overflows. -/
theorem ticks_add_sub_cancel (a b : Ticks)
    (ha : a.val < U32_MOD) (hb : b.val < U32_MOD) :
    Ticks.sub (Ticks.add a b) b = a := by
  obtain ⟨av⟩ := a
  obtain ⟨bv⟩ := b
  simp only [Ticks.add, Ticks.sub, Ticks.mk.injEq, U32_MOD] at *
  omega

/-- Witness for C6 at `a = 4294967290`, `b = 100`, where the addition wraps. -/
theorem ticks_add_sub_cancel_witness :
    (Ticks.mk 4294967290).val < U32_MOD ∧ (Ticks.mk 100).val < U32_MOD
    ∧ Ticks.sub (Ticks.add (Ticks.mk 4294967290) (Ticks.mk 100)) (Ticks.mk 100)
        = Ticks.mk 4294967290 :=
  ⟨by decide, by decide,
   ticks_add_sub_cancel (Ticks.mk 4294967290) (Ticks.mk 100) (by decide) (by decide)⟩

/-- Claim C7: `Milliseconds.to_ticks` is monotone in the duration at every
frequency: the saturating multiplication and ceiling division preserve order. -/
theorem to_ticks_monotone (a b : Milliseconds) (f : Hz) (h : a.val ≤ b.val) :
    (Milliseconds.to_ticks a f).val ≤ (Milliseconds.to_ticks b f).val := by
  simp only [Milliseconds.to_ticks, saturating_mul, div_ceil_1000_eq]
  apply Nat.div_le_div_right
  have hmul : a.val * f.val ≤ b.val * f.val := Nat.mul_le_mul_right _ h
  omega

/-- Witness for C7 at `a = 2`, `b = 5`, `f = 1000`. -/
theorem to_ticks_monotone_witness :
    (Milliseconds.mk 2).val ≤ (Milliseconds.mk 5).val
    ∧ (Milliseconds.to_ticks (Milliseconds.mk 2) (Hz.mk 1000)).val
        ≤ (Milliseconds.to_ticks (Milliseconds.mk 5) (Hz.mk 1000)).val :=
  ⟨by decide,
   to_ticks_monotone (Milliseconds.mk 2) (Milliseconds.mk 5) (Hz.mk 1000) (by decide)⟩

/-- Claim C8: the `Convert` implementation for `Ticks` is the identity and
ignores the frequency argument. -/
theorem ticks_to_ticks_id (t : Ticks) (f : Hz) : Ticks.to_ticks t f = t := rfl

/-- Claim C9: for every duration and frequency the converted tick count is at
most `4_294_968 = ceil((2^32 - 1) / 1000)`: the saturated product is divided by
1000, so the deadline stays well below the 32-bit maximum. -/
theorem to_ticks_bounded (m : Milliseconds) (f : Hz) :
    (Milliseconds.to_ticks m f).val ≤ 4294968 := by
  simp only [Milliseconds.to_ticks, saturating_mul, div_ceil_1000_eq, U32_MAX]
  omega

/-- Claim C10: `Milliseconds.to_ticks` is a total function (its divisor is the
constant 1000, never the frequency), and at the excluded frequency `Hz(0)` it
returns `Ticks(0)` for every duration. -/
theorem to_ticks_zero_freq (m : Milliseconds) :
    Milliseconds.to_ticks m (Hz.mk 0) = Ticks.mk 0 := by
  simp only [Milliseconds.to_ticks, saturating_mul, div_ceil_1000_eq, U32_MAX,
    Ticks.mk.injEq]
  omega

/-- Peeling one unrelated upcall off the yield loop adds one yield and changes
nothing else. -/
theorem yieldLoop_unrelated_cons (rest : List Upcall) :
    yieldLoop none (Upcall.unrelated :: rest)
      = (yieldLoop none rest).map (fun n => n + 1) := by
  simp [yieldLoop, deliver]

/-- Claim C3: `sleep_for` propagates every syscall error to the caller: a
frequency-query error is returned before any subscribe is issued; a subscribe
error and a `SET_RELATIVE` error are returned as is; on every path on which
`sleep_for` returns, no subscription remains on driver 0 slot 0; and a
`SET_RELATIVE` error after a successful subscribe is followed by a null
subscribe on slot 0. -/
theorem sleep_for_error_propagation (toTicks : Hz → Ticks) (k : MockKernel) :
    (∀ e, k.freqResult = .error e →
       (sleep_for toTicks k).result = some (.error e)
       ∧ (sleep_for toTicks k).events = [.command DRIVER_NUM command.FREQUENCY 0 0]
       ∧ (sleep_for toTicks k).subscribed = false)
    ∧ (∀ f e, k.freqResult = .ok f → k.subscribeResult = .error e →
       (sleep_for toTicks k).result = some (.error e)
       ∧ (sleep_for toTicks k).subscribed = false)
    ∧ (∀ f e, k.freqResult = .ok f → k.subscribeResult = .ok () →
         k.setRelativeResult = .error e →
       (sleep_for toTicks k).result = some (.error e)
       ∧ (sleep_for toTicks k).subscribed = false
       ∧ (sleep_for toTicks k).events
           = [.command DRIVER_NUM command.FREQUENCY 0 0,
              .subscribeEv DRIVER_NUM subscribe.CALLBACK,
              .command DRIVER_NUM command.SET_RELATIVE (toTicks (Hz.mk f)).val 0,
              .nullSubscribe DRIVER_NUM subscribe.CALLBACK])
    ∧ (∀ r, (sleep_for toTicks k).result = some r →
       (sleep_for toTicks k).subscribed = false) := by
  obtain ⟨fr, sr, rr, up⟩ := k
  refine ⟨?_, ?_, ?_, ?_⟩
  · intro e he
    subst he
    simp [sleep_for]
  · intro f e hf hs
    subst hf
    subst hs
    simp [sleep_for]
  · intro f e hf hs hr
    subst hf
    subst hs
    subst hr
    simp [sleep_for]
  · intro r hr
    cases fr with
    | error e => simp [sleep_for]
    | ok f =>
      cases sr with
      | error e => simp [sleep_for]
      | ok u =>
        cases rr with
        | error e => simp [sleep_for]
        | ok w =>
          cases h : yieldLoop none up with
          | none => simp [sleep_for, h] at hr
          | some n => simp [sleep_for, h]

/-- Witness for C3 at a mock whose `SET_RELATIVE` fails with error code 9. -/
theorem sleep_for_error_propagation_witness :
    (sleep_for (Milliseconds.to_ticks (Milliseconds.mk 1))
        (MockKernel.mk (.ok 1000) (.ok ()) (.error (ErrorCode.mk 9)) [])).result
      = some (.error (ErrorCode.mk 9))
    ∧ (sleep_for (Milliseconds.to_ticks (Milliseconds.mk 1))
        (MockKernel.mk (.ok 1000) (.ok ()) (.error (ErrorCode.mk 9)) [])).subscribed
      = false
    ∧ (sleep_for (Milliseconds.to_ticks (Milliseconds.mk 1))
        (MockKernel.mk (.ok 1000) (.ok ()) (.error (ErrorCode.mk 9)) [])).events
      = [.command DRIVER_NUM command.FREQUENCY 0 0,
         .subscribeEv DRIVER_NUM subscribe.CALLBACK,
         .command DRIVER_NUM command.SET_RELATIVE
           (Milliseconds.to_ticks (Milliseconds.mk 1) (Hz.mk 1000)).val 0,
         .nullSubscribe DRIVER_NUM subscribe.CALLBACK] :=
  (sleep_for_error_propagation (Milliseconds.to_ticks (Milliseconds.mk 1))
      (MockKernel.mk (.ok 1000) (.ok ()) (.error (ErrorCode.mk 9)) [])).2.2.1
    1000 (ErrorCode.mk 9) rfl rfl rfl

/-- Claim C4: a yield delivering an unrelated upcall leaves the observation
cell empty and does not make `sleep_for` return (with only that upcall the
call is still blocked after one yield, and peeling the spurious upcall off any
upcall list leaves the result unchanged); with one unrelated upcall followed
by the alarm upcall, `sleep_for` returns success after the second yield. -/
theorem sleep_for_spurious_wake (toTicks : Hz → Ticks)
    (f w whenTick refTick : Nat) (rest : List Upcall) :
    (sleep_for toTicks
        (MockKernel.mk (.ok f) (.ok ()) (.ok w) [Upcall.unrelated])).result = none
    ∧ (sleep_for toTicks
        (MockKernel.mk (.ok f) (.ok ()) (.ok w) [Upcall.unrelated])).yields = 1
    ∧ (sleep_for toTicks
        (MockKernel.mk (.ok f) (.ok ()) (.ok w) (Upcall.unrelated :: rest))).result
      = (sleep_for toTicks (MockKernel.mk (.ok f) (.ok ()) (.ok w) rest)).result
    ∧ (sleep_for toTicks
        (MockKernel.mk (.ok f) (.ok ()) (.ok w)
          [Upcall.unrelated, Upcall.alarm whenTick refTick])).result
      = some (.ok ())
    ∧ (sleep_for toTicks
        (MockKernel.mk (.ok f) (.ok ()) (.ok w)
          [Upcall.unrelated, Upcall.alarm whenTick refTick])).yields = 2 := by
  refine ⟨by simp [sleep_for, yieldLoop, deliver], by simp [sleep_for, yieldLoop, deliver],
    ?_, by simp [sleep_for, yieldLoop, deliver], by simp [sleep_for, yieldLoop, deliver]⟩
  cases h : yieldLoop none rest with
  | none => simp [sleep_for, yieldLoop_unrelated_cons, h]
  | some n => simp [sleep_for, yieldLoop_unrelated_cons, h]

/-- Claim C5: after a successful frequency query and subscribe, `sleep_for`
issues the `SET_RELATIVE` command (id 5) with the converted tick count as the
first argument and 0 as the second; the returned when-tick is discarded (the
result does not depend on it); and `sleep_for(Milliseconds(1))` at frequency
1000 arms `SET_RELATIVE` with first argument 1. -/
theorem sleep_for_arms_set_relative (toTicks : Hz → Ticks) (k : MockKernel)
    (f : Nat) (h1 : k.freqResult = .ok f) (h2 : k.subscribeResult = .ok ()) :
    Event.command DRIVER_NUM command.SET_RELATIVE (toTicks (Hz.mk f)).val 0
      ∈ (sleep_for toTicks k).events
    ∧ (∀ w1 w2,
        (sleep_for toTicks { k with setRelativeResult := .ok w1 }).result
          = (sleep_for toTicks { k with setRelativeResult := .ok w2 }).result)
    ∧ Event.command DRIVER_NUM command.SET_RELATIVE 1 0
        ∈ (sleep_for (Milliseconds.to_ticks (Milliseconds.mk 1))
             (MockKernel.mk (.ok 1000) (.ok ()) (.ok 7) [Upcall.alarm 0 0])).events := by
  obtain ⟨fr, sr, rr, up⟩ := k
  subst h1
  subst h2
  refine ⟨?_, ?_, by decide⟩
  · cases rr with
    | error e => simp [sleep_for]
    | ok w =>
      cases h : yieldLoop none up with
      | none => simp [sleep_for, h]
      | some n => simp [sleep_for, h]
  · intro w1 w2
    cases h : yieldLoop none up with
    | none => simp [sleep_for, h]
    | some n => simp [sleep_for, h]

/-- Witness for C5 at `Milliseconds(1)` and a mock with frequency 1000. -/
theorem sleep_for_arms_set_relative_witness :
    Event.command DRIVER_NUM command.SET_RELATIVE
        (Milliseconds.to_ticks (Milliseconds.mk 1) (Hz.mk 1000)).val 0
      ∈ (sleep_for (Milliseconds.to_ticks (Milliseconds.mk 1))
          (MockKernel.mk (.ok 1000) (.ok ()) (.ok 7) [Upcall.alarm 0 0])).events
    ∧ (∀ w1 w2,
        (sleep_for (Milliseconds.to_ticks (Milliseconds.mk 1))
            { MockKernel.mk (.ok 1000) (.ok ()) (.ok 7) [Upcall.alarm 0 0] with
              setRelativeResult := .ok w1 }).result
          = (sleep_for (Milliseconds.to_ticks (Milliseconds.mk 1))
              { MockKernel.mk (.ok 1000) (.ok ()) (.ok 7) [Upcall.alarm 0 0] with
                setRelativeResult := .ok w2 }).result)
    ∧ Event.command DRIVER_NUM command.SET_RELATIVE 1 0
        ∈ (sleep_for (Milliseconds.to_ticks (Milliseconds.mk 1))
            (MockKernel.mk (.ok 1000) (.ok ()) (.ok 7) [Upcall.alarm 0 0])).events :=
  sleep_for_arms_set_relative (Milliseconds.to_ticks (Milliseconds.mk 1))
    (MockKernel.mk (.ok 1000) (.ok ()) (.ok 7) [Upcall.alarm 0 0]) 1000 rfl rfl

end LibtockAlarm
